import Mathlib

/-!
Verification development for the W2CAD → RFA300 transcoder
(`W2Parser.py`).  The Python source is shallowly embedded below:

* `W2CADMeasurement` mirrors the dataclass of the same name; the
  dynamically created `SPD` attribute (only ever set through the
  `"%SPD"` table entry) is modelled as an `Option String` that starts
  out `none` (reading it while unset is Python `AttributeError`).
* `read_w2` mirrors `W2Parser.read_w2`: the same line cascade
  (`$NUMS`, `$STOM`, tagged line, `<` sample line, `$ENOM`, end of
  input).  Python rebinds one local `measurement` variable and appends
  references to it, so a record sealed by `$ENOM` still aliases the
  current object until the next `$STOM` rebinds it; the embedding
  reproduces that by keeping a `pending` seal counter and flushing the
  pending copies of the current record when the object is rebound (or
  at end of input).
* `write_rfa_datablock`, `write_rfa_header`, `write_rfa_measurements`,
  `write_rfa_footer`, `write_rfa_file` mirror the writer methods, with
  every Python exception surfaced as an explicit `Err` value, using the
  error taxonomy of the accompanying design document (FormatError /
  ParseError-like `valueError` / `keyError` / `unsupportedValue` /
  `malformedRecord` / `missingAttribute` / `unboundVariable`).
* Python float parsing plus `%.1f` / `%.0f` formatting is modelled as
  exact decimal arithmetic with round-half-to-even (`pyFormat1f`,
  `pyFormat0fTimes10`).  For decimal literals with at most one
  fractional digit — the shapes this data uses — no rounding occurs at
  all and the model agrees exactly with the IEEE-double route the
  interpreter takes; at two or more fractional digits the
  interpreter rounds the nearest double instead of the decimal value,
  and no theorem below depends on that regime.

String primitives (`pyStartsWith`, `pySplit`, `splitOnChar`, …) are
defined over `List Char` so that every definition reduces inside the
kernel.
-/

/-- Python `str.startswith(p)`: the character list of `p` is a
leading segment of the character list of `s`. -/
def pyStartsWith (s p : String) : Bool :=
  List.isPrefixOf p.data s.data

/-- Python `str.endswith(p)`. -/
def pyEndsWith (s p : String) : Bool :=
  List.isSuffixOf p.data s.data

/-- Python `str.split()` (no argument): split on whitespace runs and
drop empty tokens. -/
def pySplit (s : String) : List String :=
  let f : Char → (List String × List Char) → (List String × List Char) :=
    fun c acc =>
      if Char.isWhitespace c then
        match acc.2 with
        | [] => (acc.1, [])
        | t => (String.mk t :: acc.1, [])
      else (acc.1, c :: acc.2)
  let r := s.data.foldr f ([], [])
  match r.2 with
  | [] => r.1
  | t => String.mk t :: r.1

/-- Python `str.split(sep)` for a one-character separator: split at
every occurrence, keeping empty pieces. -/
def splitOnChar (sep : Char) (s : String) : List String :=
  let f : Char → (List String × List Char) → (List String × List Char) :=
    fun c acc =>
      if c = sep then (String.mk acc.2 :: acc.1, []) else (acc.1, c :: acc.2)
  let r := s.data.foldr f ([], [])
  String.mk r.2 :: r.1

/-- Strip leading and trailing whitespace (Python `str.strip()` with no
argument, as used by `float`/`int` conversion). -/
def trimWs (s : String) : String :=
  String.mk (((s.data.dropWhile Char.isWhitespace).reverse.dropWhile
    Char.isWhitespace).reverse)

/-- Python `line.strip("<>\n")`: remove any of the three characters
from both ends. -/
def stripSample (s : String) : String :=
  let inSet : Char → Bool := fun c => c = '<' || c = '>' || c = '\n'
  String.mk (((s.data.dropWhile inSet).reverse.dropWhile inSet).reverse)

/-- Value of a nonempty digit string. -/
def digitsVal (cs : List Char) : Nat :=
  cs.foldl (fun a c => 10 * a + (c.toNat - 48)) 0

/-- All-digits check plus evaluation; `none` on an empty or non-digit
string (Python `int` raises `ValueError` there). -/
def digitsToNat (cs : List Char) : Option Nat :=
  if cs.isEmpty then none
  else if cs.all Char.isDigit then some (digitsVal cs) else none

/-- Python `int(s)` restricted to optionally signed decimal integers
with surrounding whitespace (the only shapes the reader meets). -/
def pyInt (s : String) : Option Int :=
  let cs := (trimWs s).data
  match cs with
  | [] => none
  | c :: rest =>
    if c = '+' then (digitsToNat rest).map (fun n => Int.ofNat n)
    else if c = '-' then (digitsToNat rest).map (fun n => -(Int.ofNat n))
    else (digitsToNat cs).map (fun n => Int.ofNat n)

/-- Unsigned decimal literal `digits[.digits]` or `.digits`, returned
as (mantissa, number of fractional digits); value = mantissa / 10^k. -/
def unsignedFloatParse (cs : List Char) : Option (Nat × Nat) :=
  let intPart := cs.takeWhile Char.isDigit
  let rest := cs.dropWhile Char.isDigit
  match rest with
  | [] => if intPart.isEmpty then none else some (digitsVal intPart, 0)
  | c :: frac =>
    if c = '.' then
      if frac.all Char.isDigit && !(intPart.isEmpty && frac.isEmpty) then
        some (digitsVal intPart * 10 ^ frac.length + digitsVal frac, frac.length)
      else none
    else none

/-- Python `float(s)` restricted to optionally signed decimal literals
(no exponent forms appear in this data): sign flag, mantissa, number of
fractional digits. -/
def pyFloatParse (s : String) : Option (Bool × Nat × Nat) :=
  let cs := (trimWs s).data
  match cs with
  | [] => none
  | c :: rest =>
    if c = '+' then (unsignedFloatParse rest).map (fun p => (false, p))
    else if c = '-' then (unsignedFloatParse rest).map (fun p => (true, p))
    else (unsignedFloatParse cs).map (fun p => (false, p))

/-- Round a/b to the nearest integer, ties to even (the rounding used
by Python fixed-point float formatting). -/
def roundHalfEven (a b : Nat) : Nat :=
  let q := a / b
  let r := a % b
  if b < 2 * r then q + 1
  else if 2 * r < b then q
  else if q % 2 = 0 then q else q + 1

/-- Python `f"{float(s):.1f}"` on a decimal literal. -/
def pyFormat1f (s : String) : Option String :=
  (pyFloatParse s).map (fun p =>
    match p with
    | (neg, m, k) =>
      let t := roundHalfEven (m * 10) (10 ^ k)
      (if neg then "-" else "") ++ toString (t / 10) ++ "." ++ toString (t % 10))

/-- Python `f"{float(s)*10:.0f}"` on a decimal literal (the electron
SPD → SSD substitution). -/
def pyFormat0fTimes10 (s : String) : Option String :=
  (pyFloatParse s).map (fun p =>
    match p with
    | (neg, m, k) =>
      let t := roundHalfEven (m * 10) (10 ^ k)
      (if neg then "-" else "") ++ toString t)

/-- Python `str.replace(".", ",")` (every occurrence; the separator is
a single character so this is a character map). -/
def replaceDotComma (s : String) : String :=
  String.mk (s.data.map (fun c => if c = '.' then ',' else c))

/-- Naive substring test, used to state containment facts about the
generated text. -/
def strContains (hay needle : String) : Bool :=
  (List.range (hay.data.length + 1)).any
    (fun i => List.isPrefixOf needle.data (hay.data.drop i))

/-- Error values.  Each constructor records which Python exception (and
which design-document error kind) a raise site corresponds to. -/
inductive Err where
  /-- FormatError of the design: wrong extension (Python
  `ValueError("File format not supported")`) or no energy token in name
  or path (Python `AttributeError` on `None.group`). -/
  | formatError (msg : String)
  /-- Python `UnboundLocalError`: the local `measurement` is read
  before any `$STOM` line bound it. -/
  | unboundVariable (name : String)
  /-- Python `ValueError` from tuple unpacking or `int`/`float`
  conversion (ParseError / MalformedRecordError of the design). -/
  | valueError (msg : String)
  /-- Python `KeyError` from `w2cad_measurement_dictionary[key]` in the
  reader. -/
  | keyError (key : String)
  /-- UnsupportedValueError of the design: Python `KeyError` from one
  of the three transcoding tables, with the offending field named. -/
  | unsupportedValue (fieldName : String) (value : String)
  /-- MalformedRecordError of the design: Python `ValueError` from
  unpacking `date.split("-")` or `field_size.split("*")`. -/
  | malformedRecord (fieldName : String)
  /-- Python `AttributeError`: `self.SPD` read although no `%SPD` line
  ever created the attribute. -/
  | missingAttribute (name : String)
  /-- Python `IndexError`: `data_line[0]` on an empty sample list. -/
  | indexError (msg : String)
deriving DecidableEq, Repr

/-- The `W2CADMeasurement` dataclass.  `measurement_number` and
`energy` are the two constructor arguments of the Python class
(`energy` is the digit string captured by the energy regex); all other
fields carry the dataclass defaults until a tagged line assigns them.
`SPD` is not a declared dataclass field: Python creates it dynamically
on `setattr`, so it is an `Option`. -/
structure W2CADMeasurement where
  measurement_number : Nat := 0
  energy : String := "0"
  date : String := ""
  version : String := ""
  detector_type : String := ""
  beam_type : String := ""
  data_type : String := ""
  wedge_name : String := "0"
  wedge_direction : String := ""
  axis : String := ""
  points : String := ""
  step : String := ""
  SSD : String := ""
  SPD : Option String := none
  field_size : String := ""
  depth : String := "0"
  data_line : List String := []
deriving DecidableEq, Repr

/-- `w2cad_measurement_dictionary`: tagged-line key → attribute name,
in source order. -/
def w2cad_measurement_dictionary : List (String × String) :=
  [("%DATE", "date"),
   ("%VERSION", "version"),
   ("%DETY", "detector_type"),
   ("%BMTY", "beam_type"),
   ("%TYPE", "data_type"),
   ("%WDGL", "wedge_name"),
   ("%WDGD", "wedge_direction"),
   ("%AXIS", "axis"),
   ("%PNTS", "points"),
   ("%STEP", "step"),
   ("%SSD", "SSD"),
   ("%SPD", "SPD"),
   ("%FLSZ", "field_size"),
   ("%DPTH", "depth")]

/-- The key set of the translation table. -/
def w2cadKeys : List String := w2cad_measurement_dictionary.map Prod.fst

/-- Python `setattr(measurement, attr, value)` where `attr` is one of
the fourteen table values. -/
def setMeasurementAttr (m : W2CADMeasurement) (attr v : String) :
    W2CADMeasurement :=
  match attr with
  | "date" => { m with date := v }
  | "version" => { m with version := v }
  | "detector_type" => { m with detector_type := v }
  | "beam_type" => { m with beam_type := v }
  | "data_type" => { m with data_type := v }
  | "wedge_name" => { m with wedge_name := v }
  | "wedge_direction" => { m with wedge_direction := v }
  | "axis" => { m with axis := v }
  | "points" => { m with points := v }
  | "step" => { m with step := v }
  | "SSD" => { m with SSD := v }
  | "SPD" => { m with SPD := some v }
  | "field_size" => { m with field_size := v }
  | "depth" => { m with depth := v }
  | _ => m

/-- Reader loop state.  Python stores sealed records as references to
the one `measurement` local, so a record sealed by `$ENOM` keeps
aliasing the current object until the next `$STOM` rebinds the local:
`pending` counts how many times the current object has been appended
to the list, and those copies are flushed when the object is rebound
or the loop ends. -/
structure ReadState where
  num_scans : Option Int := none
  count : Nat := 0
  current : Option W2CADMeasurement := none
  pending : Nat := 0
  sealed : List W2CADMeasurement := []
deriving DecidableEq, Repr

/-- Append the pending aliases of the current object to the sealed
list (done when the `measurement` local is rebound, or at end of
input). -/
def flushPending (st : ReadState) : List W2CADMeasurement :=
  match st.current with
  | some m => st.sealed ++ List.replicate st.pending m
  | none => st.sealed

/-- One iteration of the `read_w2` while-loop on one line, following
the exact cascade of the source: `$NUMS`, `$STOM`, the
tagged-line `any` test (which dereferences `measurement` and therefore
raises `UnboundLocalError` for every non-`$NUMS`/`$STOM` line seen
before the first `$STOM`), `<` sample lines, `$ENOM`. -/
def stepLine (energy : String) (st : ReadState) (line : String) :
    Except Err ReadState :=
  if pyStartsWith line "$NUMS" then
    match (pySplit line).getLast? with
    | none => .error (.indexError "list index out of range")
    | some t =>
      match pyInt t with
      | none => .error (.valueError "invalid literal for int")
      | some n => .ok { st with num_scans := some n }
  else if pyStartsWith line "$STOM" then
    .ok { num_scans := st.num_scans,
          count := st.count + 1,
          current := some { measurement_number := st.count + 1, energy := energy },
          pending := 0,
          sealed := flushPending st }
  else
    match st.current with
    | none => .error (.unboundVariable "measurement")
    | some m =>
      if w2cadKeys.any (fun k => pyStartsWith line k) then
        match pySplit line with
        | [k, v] =>
          match List.lookup k w2cad_measurement_dictionary with
          | some attr => .ok { st with current := some (setMeasurementAttr m attr v) }
          | none => .error (.keyError k)
        | _ => .error (.valueError "not enough values to unpack")
      else if pyStartsWith line "<" then
        .ok { st with current := some { m with data_line := m.data_line ++ [stripSample line] } }
      else if pyStartsWith line "$ENOM" then
        .ok { st with pending := st.pending + 1 }
      else .ok st

/-- Run the loop over the remaining lines. -/
def runLines (energy : String) (st : ReadState) : List String → Except Err ReadState
  | [] => .ok st
  | l :: ls =>
    match stepLine energy st l with
    | .ok st2 => runLines energy st2 ls
    | .error e => .error e

/-- End of input: `readline` returns the empty string, which reaches
the tagged-line `any` test (raising `UnboundLocalError` when no block
was ever opened), matches nothing, and hits the `break`. -/
def finalizeRead (st : ReadState) : Except Err (Option Int × List W2CADMeasurement) :=
  match st.current with
  | none => .error (.unboundVariable "measurement")
  | some _ => .ok (st.num_scans, flushPending st)

/-- `Path.name`: the final path component (paths here have no trailing
separator, where pathlib normalization would differ). -/
def pathName (p : String) : String :=
  (splitOnChar '/' p).getLastD ""

/-- Match of `(\d+)\s*(?:MeV|MV|X)` anchored at the current position:
a maximal digit run, optional whitespace, then one of the three
suffixes.  No backtracking can help because none of the suffixes
starts with a digit or whitespace. -/
def energyMatchAt (cs : List Char) : Option (List Char) :=
  let ds := cs.takeWhile Char.isDigit
  if ds.isEmpty then none
  else
    let rest := (cs.dropWhile Char.isDigit).dropWhile Char.isWhitespace
    if List.isPrefixOf "MeV".data rest || List.isPrefixOf "MV".data rest
        || List.isPrefixOf "X".data rest then
      some ds
    else none

/-- `re.search(r"(\d+)\s*(?:MeV|MV|X)", name)`: leftmost match, group 1. -/
def searchEnergyName : List Char → Option String
  | [] => none
  | c :: cs =>
    match energyMatchAt (c :: cs) with
    | some ds => some (String.mk ds)
    | none => searchEnergyName cs

/-- Match of `(\d+)X` anchored at the current position. -/
def energyMatchAtX (cs : List Char) : Option (List Char) :=
  let ds := cs.takeWhile Char.isDigit
  if ds.isEmpty then none
  else if List.isPrefixOf "X".data (cs.dropWhile Char.isDigit) then some ds
  else none

/-- `re.search(r"(\d+)X", path)`: leftmost match, group 1. -/
def searchEnergyPath : List Char → Option String
  | [] => none
  | c :: cs =>
    match energyMatchAtX (c :: cs) with
    | some ds => some (String.mk ds)
    | none => searchEnergyPath cs

/-- Energy extraction of `read_w2`: file name first, then the whole
path as fallback; if neither regex matches, `energy_match` is `None`
and `energy_match.group(1)` raises (FormatError of the design). -/
def getEnergy (filePath : String) : Except Err String :=
  match searchEnergyName (pathName filePath).data with
  | some e => .ok e
  | none =>
    match searchEnergyPath filePath.data with
    | some e => .ok e
    | none => .error (.formatError "NoneType object has no attribute group")

/-- `W2Parser.read_w2`, as a function from the path string and the
list of lines of the file (newline terminators stripped; they are
irrelevant to every branch of the loop) to the final
`(num_scans, measurement_list)` pair or the raised error. -/
def read_w2 (filePath : String) (lines : List String) :
    Except Err (Option Int × List W2CADMeasurement) :=
  if pyEndsWith filePath ".ASC" then
    match getEnergy filePath with
    | .error e => .error e
    | .ok energy =>
      match runLines energy {} lines with
      | .error e => .error e
      | .ok st => finalizeRead st
  else .error (.formatError "File format not supported")

/-- `scan_type_mapping` of `write_rfa_datablock`, in source order. -/
def scan_type_mapping : List (String × String) :=
  [("OPD", "DPT"),
   ("OPP", "PRO"),
   ("WDD", "DPT"),
   ("WDD_SSD80", "DPT"),
   ("WDD_SSD120", "DPT"),
   ("WDP", "PRO"),
   ("WLP", "PRO"),
   ("DPR", "DIA"),
   ("BLD", "DPT"),
   ("MeasuredDepthDosesForApplicator", "DPT"),
   ("MeasuredDepthDosesForOpenBeam", "DPT"),
   ("MeasuredProfileForOpenBeam", "PRO")]

/-- `detector_type_mapping`: diamond and undefined detectors are
absent, so indexing with them raises. -/
def detector_type_mapping : List (String × String) :=
  [("CHA", "ION"), ("DIO", "SEM")]

/-- `beam_type_mapping`. -/
def beam_type_mapping : List (String × String) :=
  [("PHO", "PHO"), ("ELE", "ELE")]

/-- `measurement_type_mapping`, in source order. -/
def measurement_type_mapping : List (String × String) :=
  [("OPD", "1"),
   ("OPP", "2"),
   ("WDD", "5"),
   ("WDD_SSD80", "5"),
   ("WDD_SSD120", "5"),
   ("WDP", "6"),
   ("WLP", "6"),
   ("BLD", "1"),
   ("DPR", "2"),
   ("MeasuredProfileForOpenBeam", "2"),
   ("MeasuredDepthDosesForApplicator", "1"),
   ("MeasuredDepthDosesForOpenBeam", "1")]

/-- Python dict indexing `table[key]`: the value, or the named
UnsupportedValueError (Python `KeyError`) on a miss. -/
def tableIndex (table : List (String × String)) (fieldName key : String) :
    Except Err String :=
  match List.lookup key table with
  | some v => .ok v
  | none => .error (.unsupportedValue fieldName key)

/-- `scan_type_mapping[self.data_type]`. -/
def rfaScanType (m : W2CADMeasurement) : Except Err String :=
  tableIndex scan_type_mapping "data_type_code" m.data_type

/-- `detector_type_mapping[self.detector_type]`. -/
def rfaDetectorType (m : W2CADMeasurement) : Except Err String :=
  tableIndex detector_type_mapping "detector_type_code" m.detector_type

/-- `day, month, year = self.date.split("-")` then `MM-DD-YYYY`;
unpacking fails unless the split has exactly three pieces. -/
def rfaDate (m : W2CADMeasurement) : Except Err String :=
  match splitOnChar '-' m.date with
  | [day, month, year] => .ok (month ++ "-" ++ day ++ "-" ++ year)
  | _ => .error (.malformedRecord "date")

/-- `x, y = self.field_size.split("*")` then tab-joined. -/
def rfaFsz (m : W2CADMeasurement) : Except Err String :=
  match splitOnChar '*' m.field_size with
  | [x, y] => .ok (x ++ "\t" ++ y)
  | _ => .error (.malformedRecord "field_size")

/-- `beam_type_mapping[self.beam_type]`. -/
def rfaBeamType (m : W2CADMeasurement) : Except Err String :=
  tableIndex beam_type_mapping "beam_type_code" m.beam_type

/-- `f"{float(self.energy):.1f}"`. -/
def rfaEnergy (m : W2CADMeasurement) : Except Err String :=
  match pyFormat1f m.energy with
  | some s => .ok s
  | none => .error (.valueError "could not convert string to float")

/-- `rfa_ssd`: the SSD string if nonempty, else the electron
substitution `f"{float(self.SPD)*10:.0f}"`; when the `SPD` attribute
was never created the Python read raises `AttributeError`. -/
def rfaSsd (m : W2CADMeasurement) : Except Err String :=
  if m.SSD = "" then
    match m.SPD with
    | none => .error (.missingAttribute "SPD")
    | some spd =>
      match pyFormat0fTimes10 spd with
      | some s => .ok s
      | none => .error (.valueError "could not convert string to float")
  else .ok m.SSD

/-- `rfa_brd`: computed from `self.SSD`/`self.SPD` by the same code as
`rfa_ssd`. -/
def rfaBrd (m : W2CADMeasurement) : Except Err String :=
  rfaSsd m

/-- `measurement_type_mapping[self.data_type]`. -/
def rfaMea (m : W2CADMeasurement) : Except Err String :=
  tableIndex measurement_type_mapping "data_type_code" m.data_type

/-- `f"{float(self.depth):.1f}"` with `.` replaced by `,`. -/
def rfaPrd (m : W2CADMeasurement) : Except Err String :=
  match pyFormat1f m.depth with
  | some s => .ok (replaceDotComma s)
  | none => .error (.valueError "could not convert string to float")

/-- `y, x, z, dose = line.split(" ")` (axis 1 / axis 2 swapped for the
RFA format) with each of the four pieces formatted to one decimal
place: returns (x, y, z, dose) already swapped and formatted. -/
def sampleSwapFormat (line : String) : Except Err (String × String × String × String) :=
  match splitOnChar ' ' line with
  | [sy, sx, sz, sd] =>
    match pyFormat1f sx, pyFormat1f sy, pyFormat1f sz, pyFormat1f sd with
    | some x, some y, some z, some dose => .ok (x, y, z, dose)
    | _, _, _, _ => .error (.valueError "could not convert string to float")
  | _ => .error (.valueError "not enough values to unpack")

/-- The dedented and stripped `scan_header_block` f-string, with every
derived value substituted (byte-for-byte the template of the source,
tabs included). -/
def scanHeaderBlock (num : Nat) (scantype detector date fsz beam energy ssd
    brd weg mea prd pts sx sy sz ex ey ez : String) : String :=
  "#\n# RFA300 ASCII Measurement Dump ( BDS format )\n#\n# Measurement number \t"
    ++ toString num
    ++ "\n#\n%VNR 1.0\n%MOD \tRAT\n%TYP \tSCN\n%SCN \t" ++ scantype
    ++ "\n%FLD \t" ++ detector
    ++ "\n%DAT \t" ++ date
    ++ "\n%TIM \t12:00:00\n%FSZ \t" ++ fsz
    ++ "\n%BMT \t" ++ beam ++ "\t   " ++ energy
    ++ "\n%SSD \t" ++ ssd
    ++ "\n%BUP \t0\n%BRD \t" ++ brd
    ++ "\n%FSH \t1\n%ASC \t0\n%WEG \t" ++ weg
    ++ "\n%GPO \t0\n%CPO \t0\n%MEA \t" ++ mea
    ++ "\n%PRD \t" ++ prd
    ++ "\n%PTS \t" ++ pts
    ++ "\n%STS \t    " ++ sx ++ "\t  " ++ sy ++ "\t   " ++ sz
    ++ " # Start Scan values in mm ( X , Y , Z )\n%EDS \t    "
    ++ ex ++ "\t   " ++ ey ++ "\t   " ++ ez
    ++ " # End Scan values in mm ( X , Y , Z )"

/-- The per-sample `=` lines accumulated by the for-loop. -/
def sampleLinesText : List String → Except Err String
  | [] => .ok ""
  | l :: ls => do
    let f ← sampleSwapFormat l
    let rest ← sampleLinesText ls
    pure ("=\t" ++ f.1 ++ "\t" ++ f.2.1 ++ "\t" ++ f.2.2.1 ++ "\t" ++ f.2.2.2
      ++ "\n" ++ rest)

/-- `W2CADMeasurement.write_rfa_datablock`, with the intermediate
values computed in the order in which the source computes them (so the
first failing step determines the raised error). -/
def write_rfa_datablock (m : W2CADMeasurement) : Except Err String := do
  let scantype ← rfaScanType m
  let detector ← rfaDetectorType m
  let date ← rfaDate m
  let fsz ← rfaFsz m
  let beam ← rfaBeamType m
  let energy ← rfaEnergy m
  let ssd ← rfaSsd m
  let brd ← rfaBrd m
  let mea ← rfaMea m
  let prd ← rfaPrd m
  let pts := m.points
  let starting ← match m.data_line.head? with
    | some l => Except.ok l
    | none => Except.error (.indexError "list index out of range")
  let s ← sampleSwapFormat starting
  let endLine ← match m.data_line.getLast? with
    | some l => Except.ok l
    | none => Except.error (.indexError "list index out of range")
  let e ← sampleSwapFormat endLine
  let body ← sampleLinesText m.data_line
  pure (scanHeaderBlock m.measurement_number scantype detector date fsz beam
      energy ssd brd m.wedge_name mea prd pts s.1 s.2.1 s.2.2.1 e.1 e.2.1 e.2.2.1
    ++ "\n" ++ "#\n#\t  X      Y      Z     Dose\n#" ++ "\n"
    ++ body ++ ":EOM # End of Measurement\n")

/-- `W2Parser.write_rfa_header`: `num_scans` is rendered the way the
f-string renders it (`None` when the count directive never set it). -/
def write_rfa_header (num_scans : Option Int) : String :=
  ":MSR \t" ++ (match num_scans with | some n => toString n | none => "None")
    ++ "\t # No. of measurement in file\n:SYS BDS 0   # Beam Data Scanner System"

/-- `W2Parser.write_rfa_measurements`: string accumulation over the
measurement list; a raising datablock aborts the whole call. -/
def write_rfa_measurements : List W2CADMeasurement → Except Err String
  | [] => .ok ""
  | m :: ms => do
    let b ← write_rfa_datablock m
    let rest ← write_rfa_measurements ms
    pure (b ++ rest)

/-- `W2Parser.write_rfa_footer`. -/
def write_rfa_footer : String := ":EOF # End of File"

/-- `W2Parser.write_rfa_file` (the returned document; the actual file
write is I/O glue outside the model). -/
def write_rfa_file (num_scans : Option Int) (ms : List W2CADMeasurement) :
    Except Err String := do
  let mid ← write_rfa_measurements ms
  pure (write_rfa_header num_scans ++ "\n" ++ mid ++ "\n" ++ write_rfa_footer)

/-- Decidable equality of `Except` results, so that concrete runs can
be settled by `decide`. -/
instance {ε α : Type} [DecidableEq ε] [DecidableEq α] :
    DecidableEq (Except ε α) := fun a b =>
  match a, b with
  | .ok x, .ok y =>
    if h : x = y then .isTrue (by rw [h])
    else .isFalse (fun he => h (Except.ok.inj he))
  | .error x, .error y =>
    if h : x = y then .isTrue (by rw [h])
    else .isFalse (fun he => h (Except.error.inj he))
  | .ok _, .error _ => .isFalse (fun he => Except.noConfusion he)
  | .error _, .ok _ => .isFalse (fun he => Except.noConfusion he)

/-- Source lines of the concrete scenario of claim C2 (the block of
the specification, including the surrounding sentinels). -/
def c2Lines : List String :=
  ["$NUMS 1", "$STOM", "%DETY CHA", "%BMTY PHO", "%TYPE OPD",
   "%FLSZ 100*100", "%DATE 25-11-2008", "%SSD 1000", "%DPTH 0", "%PNTS 2",
   "<0.0 -71.5 30.0 100.0>", "<0.0 71.2 30.1 98.5>", "$ENOM"]

/-- Full pipeline on the C2 scenario: read, then transcode every
sealed record. -/
def c2Output : Except Err String :=
  (read_w2 "6X.ASC" c2Lines).bind (fun r => write_rfa_measurements r.2)

set_option maxRecDepth 100000 in
/-- Claim C2: on the concrete source block (NUMS 1; DETY CHA, BMTY
PHO, TYPE OPD, FLSZ 100*100, DATE 25-11-2008, SSD 1000, DPTH 0, PNTS
2; samples <0.0 -71.5 30.0 100.0> and <0.0 71.2 30.1 98.5>) the
transcoded output contains the ION detector line, the DPT scan-type
line, the tab-joined 100/100 field size, the month-day-swapped date
11-25-2008, exactly one equals-sign line per sample with axis 1 and
axis 2 swapped and all four fields at one decimal place, and the block
ends with the :EOM sentinel line.  (In the emitted text every tag is
followed by one space and one tab, so the claimed fragments appear
with that separator.) -/
theorem c2_concrete_scenario :
    c2Output.map (fun s =>
      strContains s "%FLD \tION" && strContains s "%SCN \tDPT" &&
      strContains s "%FSZ \t100\t100" && strContains s "%DAT \t11-25-2008" &&
      strContains s "=\t-71.5\t0.0\t30.0\t100.0\n" &&
      strContains s "=\t71.2\t0.0\t30.1\t98.5\n" &&
      ((splitOnChar '\n' s).countP (fun l => pyStartsWith l "=") == 2) &&
      pyEndsWith s ":EOM # End of Measurement\n") = .ok true := by
  decide

/-- Truncated source of claim C1: the second block is opened by $STOM
but end of input arrives before its $ENOM. -/
def c1Lines : List String :=
  ["$NUMS 2", "$STOM", "%DATE 25-11-2008", "$ENOM", "$STOM", "%DATE 01-01-2000"]

/-- Claim C1 (code behaviour at the failing input): on a source whose
last block is opened but never closed, `read_w2` terminates normally
and returns only the previously sealed record — it does not raise.
The design document requires a ParseError here, so this exhibits the
divergence. -/
theorem c1_truncated_block_returns_sealed :
    (read_w2 "6X.ASC" c1Lines).map
      (fun r => (r.1, r.2.map (fun m => m.measurement_number))) =
      .ok (some 2, [1]) := by
  decide

/-- Claim C7: the scan-type table and the measurement-type table are
total over the same twelve source data-type codes, with no duplicate
keys, every scan-type value one of DPT/PRO/DIA, and a
measurement-type value for every supported code. -/
theorem c7_tables_total_and_aligned :
    (scan_type_mapping.map Prod.fst).length = 12 ∧
    (scan_type_mapping.map Prod.fst).Nodup ∧
    (measurement_type_mapping.map Prod.fst).Nodup ∧
    (∀ c ∈ scan_type_mapping.map Prod.fst,
      c ∈ measurement_type_mapping.map Prod.fst) ∧
    (∀ c ∈ measurement_type_mapping.map Prod.fst,
      c ∈ scan_type_mapping.map Prod.fst) ∧
    (∀ c ∈ scan_type_mapping.map Prod.fst,
      List.lookup c scan_type_mapping = some "DPT" ∨
      List.lookup c scan_type_mapping = some "PRO" ∨
      List.lookup c scan_type_mapping = some "DIA") ∧
    (∀ c ∈ measurement_type_mapping.map Prod.fst,
      (List.lookup c measurement_type_mapping).isSome) := by
  decide

/-- Witness for C7 at the concrete code OPD: it is a key of the
measurement-type table and its scan-type value is one of the three
destination codes. -/
theorem c7_tables_total_and_aligned_witness :
    "OPD" ∈ measurement_type_mapping.map Prod.fst ∧
    (List.lookup "OPD" scan_type_mapping = some "DPT" ∨
     List.lookup "OPD" scan_type_mapping = some "PRO" ∨
     List.lookup "OPD" scan_type_mapping = some "DIA") :=
  ⟨c7_tables_total_and_aligned.2.2.2.1 "OPD" (by decide),
   c7_tables_total_and_aligned.2.2.2.2.2.1 "OPD" (by decide)⟩

/-- Source lines of the C6 counterexample: one opened block, sealed
twice by two consecutive $ENOM lines. -/
def c6Lines : List String := ["$NUMS 1", "$STOM", "$ENOM", "$ENOM"]

/-- Claim C6 is false as stated: this parse terminates normally with
two sealed records whose sequence numbers are 1 and 1 — not the
strictly increasing 1, 2 the claim requires for N = 2. -/
theorem c6_counterexample :
    (read_w2 "6X.ASC" c6Lines).map
      (fun r => r.2.map (fun m => m.measurement_number)) = .ok [1, 1] ∧
    ([1, 1] : List Nat) ≠ List.range' 1 2 := by
  constructor
  · decide
  · decide

/-- Source lines of the C5 counterexample: a line whose first token
%DATEX strictly extends the table key %DATE. -/
def c5Lines : List String := ["$NUMS 1", "$STOM", "%DATEX 5", "$ENOM"]

/-- Claim C5 is false as stated: the reader guards tagged lines with
whole-line startswith against each table key, not an exact first-token
comparison.  The %DATEX line is admitted by that guard (second
conjunct) although its first token equals no table key (fourth
conjunct), and the read then aborts with a key-lookup error instead of
assigning nothing and continuing. -/
theorem c5_counterexample :
    read_w2 "6X.ASC" c5Lines = .error (.keyError "%DATEX") ∧
    w2cadKeys.any (fun k => pyStartsWith "%DATEX 5" k) = true ∧
    (pySplit "%DATEX 5").head? = some "%DATEX" ∧
    "%DATEX" ∉ w2cadKeys := by
  refine ⟨by decide, by decide, by decide, by decide⟩

/-- Claim C3: an unsupported data-type, detector-type or beam-type
code makes `write_rfa_datablock` fail with the UnsupportedValueError
naming the offending field and its value, and the call returns no
block at all.  The three conjuncts follow the evaluation order of the
source: the data-type table is indexed first, the detector table
second (both before any other field is touched), and the beam-type
table after the date and field-size fields have been unpacked. -/
theorem c3_unsupported_codes (m : W2CADMeasurement) :
    (List.lookup m.data_type scan_type_mapping = none →
      write_rfa_datablock m =
        .error (.unsupportedValue "data_type_code" m.data_type)) ∧
    (∀ sc, List.lookup m.data_type scan_type_mapping = some sc →
      List.lookup m.detector_type detector_type_mapping = none →
      write_rfa_datablock m =
        .error (.unsupportedValue "detector_type_code" m.detector_type)) ∧
    (∀ sc det d f, List.lookup m.data_type scan_type_mapping = some sc →
      List.lookup m.detector_type detector_type_mapping = some det →
      rfaDate m = .ok d → rfaFsz m = .ok f →
      List.lookup m.beam_type beam_type_mapping = none →
      write_rfa_datablock m =
        .error (.unsupportedValue "beam_type_code" m.beam_type)) := by
  refine ⟨fun h => ?_, fun sc h1 h2 => ?_, fun sc det d f h1 h2 h3 h4 h5 => ?_⟩
  · simp only [write_rfa_datablock, rfaScanType, tableIndex, h, bind, Except.bind]
  · simp only [write_rfa_datablock, rfaScanType, rfaDetectorType, tableIndex,
      h1, h2, bind, Except.bind]
  · simp only [write_rfa_datablock, rfaScanType, rfaDetectorType, rfaBeamType,
      tableIndex, h1, h2, h3, h4, h5, bind, Except.bind]

/-- A diamond-detector record that is otherwise fully supported. -/
def diaRecord : W2CADMeasurement :=
  { measurement_number := 1, energy := "6", detector_type := "DIA",
    beam_type := "PHO", data_type := "OPD", date := "25-11-2008",
    field_size := "100*100", SSD := "1000", points := "2",
    data_line := ["0.0 -71.5 30.0 100.0"] }

/-- Witness for C3: transcoding the DETY DIA record fails with the
UnsupportedValueError naming detector_type_code and the value DIA. -/
theorem c3_unsupported_codes_witness :
    write_rfa_datablock diaRecord =
      .error (.unsupportedValue "detector_type_code" "DIA") :=
  (c3_unsupported_codes diaRecord).2.1 "DPT" rfl rfl

/-- Claim C4: a nonempty source-surface-distance string is used
directly as both the destination SSD value and the destination BRD
value; an empty one makes both fields fall back to the
source-patient-distance times ten at zero decimal places; and a record
with neither (empty SSD, no SPD attribute) makes transcoding fail hard
(Python AttributeError) instead of defaulting.  `rfaSsd` and `rfaBrd`
are exactly the values interpolated into the %SSD and %BRD lines of
the emitted block. -/
theorem c4_ssd_brd_substitution (m : W2CADMeasurement) :
    (m.SSD ≠ "" → rfaSsd m = .ok m.SSD ∧ rfaBrd m = .ok m.SSD) ∧
    (∀ spd v, m.SSD = "" → m.SPD = some spd →
      pyFormat0fTimes10 spd = some v →
      rfaSsd m = .ok v ∧ rfaBrd m = .ok v) ∧
    (∀ sc det d f bt en, m.SSD = "" → m.SPD = none →
      List.lookup m.data_type scan_type_mapping = some sc →
      List.lookup m.detector_type detector_type_mapping = some det →
      rfaDate m = .ok d → rfaFsz m = .ok f →
      List.lookup m.beam_type beam_type_mapping = some bt →
      rfaEnergy m = .ok en →
      write_rfa_datablock m = .error (.missingAttribute "SPD")) := by
  refine ⟨fun hne => ?_, fun spd v h0 h1 h2 => ?_,
    fun sc det d f bt en h0 h1 ha hb hc hd he hf => ?_⟩
  · constructor <;> simp only [rfaBrd, rfaSsd, if_neg hne]
  · constructor <;> simp only [rfaBrd, rfaSsd, h0, h1, h2, if_pos]
  · simp only [write_rfa_datablock, rfaScanType, rfaDetectorType, rfaBeamType,
      tableIndex, rfaSsd, rfaBrd, ha, hb, hc, hd, he, hf, h0, h1, if_pos,
      bind, Except.bind]

/-- A photon record with a nonempty SSD. -/
def photonSsdRecord : W2CADMeasurement :=
  { measurement_number := 1, energy := "6", detector_type := "CHA",
    beam_type := "PHO", data_type := "OPD", date := "25-11-2008",
    field_size := "100*100", SSD := "1000" }

/-- An electron record with empty SSD and a parsed SPD attribute. -/
def electronSpdRecord : W2CADMeasurement :=
  { measurement_number := 1, energy := "6", detector_type := "CHA",
    beam_type := "ELE", data_type := "OPD", date := "25-11-2008",
    field_size := "100*100", SSD := "", SPD := some "100" }

/-- A record with empty SSD and no SPD attribute at all. -/
def noDistanceRecord : W2CADMeasurement :=
  { measurement_number := 1, energy := "6", detector_type := "CHA",
    beam_type := "ELE", data_type := "OPD", date := "25-11-2008",
    field_size := "100*100", SSD := "" }

/-- Witness for C4 at the three concrete records: SSD 1000 passes
through to both fields, SPD 100 becomes 1000 in both fields, and the
record with neither distance raises. -/
theorem c4_ssd_brd_substitution_witness :
    (rfaSsd photonSsdRecord = .ok "1000" ∧ rfaBrd photonSsdRecord = .ok "1000") ∧
    (rfaSsd electronSpdRecord = .ok "1000" ∧ rfaBrd electronSpdRecord = .ok "1000") ∧
    write_rfa_datablock noDistanceRecord = .error (.missingAttribute "SPD") :=
  ⟨(c4_ssd_brd_substitution photonSsdRecord).1 (by decide),
   (c4_ssd_brd_substitution electronSpdRecord).2.1 "100" "1000" rfl rfl rfl,
   (c4_ssd_brd_substitution noDistanceRecord).2.2 "DPT" "ION" "11-25-2008"
     "100\t100" "ELE" "6.0" rfl rfl rfl rfl rfl rfl rfl rfl⟩

/-- Claim C8: a path that does not end in the case-sensitive ".ASC"
makes the reader fail before anything is read; with the right suffix
but no energy token in the file name and none in the whole path it
also fails (both failures are the FormatError of the design, and no
record is produced); otherwise the energy comes from the file-name
match first and from the path match only as fallback. -/
theorem c8_extension_and_energy (path : String) (lines : List String) :
    (pyEndsWith path ".ASC" = false →
      read_w2 path lines = .error (.formatError "File format not supported")) ∧
    (pyEndsWith path ".ASC" = true →
      searchEnergyName (pathName path).data = none →
      searchEnergyPath path.data = none →
      read_w2 path lines =
        .error (.formatError "NoneType object has no attribute group")) ∧
    (∀ e, searchEnergyName (pathName path).data = some e →
      getEnergy path = .ok e) ∧
    (∀ e, searchEnergyName (pathName path).data = none →
      searchEnergyPath path.data = some e → getEnergy path = .ok e) := by
  refine ⟨fun h => ?_, fun h1 h2 h3 => ?_, fun e h => ?_, fun e h1 h2 => ?_⟩
  · simp only [read_w2, h, Bool.false_eq_true, if_false]
  · simp only [read_w2, h1, if_true, getEnergy, h2, h3]
  · simp only [getEnergy, h]
  · simp only [getEnergy, h1, h2]

/-- Witness for C8: a wrong-suffix path fails, a suffix-correct path
with no energy token anywhere fails, a name with a 6 MV token yields
energy 6, and a name without a token inside a path containing 18X
yields energy 18 from the path fallback. -/
theorem c8_extension_and_energy_witness :
    read_w2 "beam.txt" [] = .error (.formatError "File format not supported") ∧
    read_w2 "photons/beam.ASC" [] =
      .error (.formatError "NoneType object has no attribute group") ∧
    getEnergy "6 MV_Open_PDD_sorted.ASC" = .ok "6" ∧
    getEnergy "photons/18X/profile.ASC" = .ok "18" :=
  ⟨(c8_extension_and_energy "beam.txt" []).1 rfl,
   (c8_extension_and_energy "photons/beam.ASC" []).2.1 rfl rfl rfl,
   (c8_extension_and_energy "6 MV_Open_PDD_sorted.ASC" []).2.2.1 "6" rfl,
   (c8_extension_and_energy "photons/18X/profile.ASC" []).2.2.2 "18" rfl rfl⟩

/-- Concatenation of a list of strings in order. -/
def concatAll : List String → String
  | [] => ""
  | s :: ss => s ++ concatAll ss

/-- Transcode every record of the list, in order, keeping the blocks
separate; fails on the first record whose transcoding raises. -/
def mapExceptBlocks : List W2CADMeasurement → Except Err (List String)
  | [] => .ok []
  | m :: ms => do
    let b ← write_rfa_datablock m
    let bs ← mapExceptBlocks ms
    pure (b :: bs)

/-- The accumulating loop of `write_rfa_measurements` equals the
concatenation of the per-record blocks in order. -/
theorem write_rfa_measurements_eq_concat (ms : List W2CADMeasurement) :
    write_rfa_measurements ms = (mapExceptBlocks ms).map concatAll := by
  induction ms with
  | nil => rfl
  | cons m ms ih =>
    simp only [write_rfa_measurements, mapExceptBlocks, bind, Except.bind]
    cases write_rfa_datablock m with
    | error e => rfl
    | ok b =>
      rw [ih]
      cases mapExceptBlocks ms with
      | error e => rfl
      | ok bs => rfl

/-- Claim C9: whenever every record transcodes, the assembled document
is exactly the two-line file header, then the records' blocks
concatenated in original order (none dropped, reordered or
duplicated: the block list is the order-preserving image of the record
list), then the :EOF sentinel line. -/
theorem c9_file_assembly (ns : Option Int) (ms : List W2CADMeasurement)
    (bs : List String) (h : mapExceptBlocks ms = .ok bs) :
    write_rfa_file ns ms =
      .ok (write_rfa_header ns ++ "\n" ++ concatAll bs ++ "\n" ++ write_rfa_footer) := by
  simp only [write_rfa_file, write_rfa_measurements_eq_concat, h, Except.map,
    bind, Except.bind, pure, Except.pure]

/-- Witness for C9 at the concrete empty record list: the document is
header, empty middle, footer. -/
theorem c9_file_assembly_witness :
    write_rfa_file (some 1) [] =
      .ok (write_rfa_header (some 1) ++ "\n" ++ concatAll [] ++ "\n" ++ write_rfa_footer) :=
  c9_file_assembly (some 1) [] [] rfl

/-- Running the loop over a concatenation runs the two parts in
sequence, stopping at the first raised error. -/
theorem runLines_append (energy : String) (st : ReadState) (a b : List String) :
    runLines energy st (a ++ b) =
      match runLines energy st a with
      | .ok st2 => runLines energy st2 b
      | .error e => .error e := by
  induction a generalizing st with
  | nil => rfl
  | cons l ls ih =>
    simp only [List.cons_append, runLines]
    cases stepLine energy st l with
    | ok st2 => exact ih st2
    | error e => rfl

/-- Claim C10: if the lines before some line `l` leave the reader with
no current record (`measurement` never bound, as before the first
$STOM) and `l` is neither a count directive nor a block start — in
particular any tagged metadata line or bracket-delimited sample line —
then `read_w2` fails with the unbound-variable error, because the
tagged-line membership test dereferences the unbound `measurement`
local before any other branch can see the line. -/
theorem c10_unbound_before_first_block (path energy l : String)
    (pre post : List String) (st : ReadState)
    (hext : pyEndsWith path ".ASC" = true)
    (hen : getEnergy path = .ok energy)
    (hpre : runLines energy {} pre = .ok st)
    (hcur : st.current = none)
    (hnums : pyStartsWith l "$NUMS" = false)
    (hstom : pyStartsWith l "$STOM" = false) :
    read_w2 path (pre ++ l :: post) = .error (.unboundVariable "measurement") := by
  have hstep : stepLine energy st l = .error (.unboundVariable "measurement") := by
    simp only [stepLine, hnums, hstom, Bool.false_eq_true, if_false, hcur]
  simp only [read_w2, hext, if_true, hen, runLines_append, hpre, runLines, hstep]

/-- Witness for C10: a %DATE tagged line arriving after the count
directive but before any $STOM makes the concrete read fail with the
unbound-variable error. -/
theorem c10_unbound_before_first_block_witness :
    read_w2 "6X.ASC" ["$NUMS 1", "%DATE 25-11-2008"] =
      .error (.unboundVariable "measurement") :=
  c10_unbound_before_first_block "6X.ASC" "6" "%DATE 25-11-2008"
    ["$NUMS 1"] [] { num_scans := some 1 } rfl rfl rfl rfl rfl rfl

/-- Amendment of claim C5: the reader admits a line into the
tagged-line branch by whole-line startswith against each table key; the
field assignment itself then indexes the table with the exact first
whitespace token of the line.  Hence a line whose first token equals a
key assigns exactly that key's field, while a line admitted by the
prefix test whose first token is no exact key aborts the read with a
key-lookup error: no field is assigned, but the line is not silently
skipped either. -/
theorem c5_amended_prefix_guard_exact_index (energy line : String)
    (st : ReadState) (m : W2CADMeasurement)
    (hnums : pyStartsWith line "$NUMS" = false)
    (hstom : pyStartsWith line "$STOM" = false)
    (hcur : st.current = some m)
    (hguard : w2cadKeys.any (fun k => pyStartsWith line k) = true) :
    (∀ k v attr, pySplit line = [k, v] →
      List.lookup k w2cad_measurement_dictionary = some attr →
      stepLine energy st line =
        .ok { st with current := some (setMeasurementAttr m attr v) }) ∧
    (∀ k v, pySplit line = [k, v] →
      List.lookup k w2cad_measurement_dictionary = none →
      stepLine energy st line = .error (.keyError k)) := by
  constructor
  · intro k v attr hsp hlk
    simp only [stepLine, hnums, hstom, Bool.false_eq_true, if_false, hcur,
      hguard, if_true, hsp, hlk]
  · intro k v hsp hlk
    simp only [stepLine, hnums, hstom, Bool.false_eq_true, if_false, hcur,
      hguard, if_true, hsp, hlk]

/-- Witness for the C5 amendment: on the %DATEX line the guard admits
the line and the step raises the key-lookup error for token %DATEX. -/
theorem c5_amended_prefix_guard_exact_index_witness :
    stepLine "6" { current := some {} } "%DATEX 5" = .error (.keyError "%DATEX") :=
  (c5_amended_prefix_guard_exact_index "6" "%DATEX 5"
    { current := some {} } {} rfl rfl rfl rfl).2 "%DATEX" "5" rfl rfl

/-- Well-formed block structure, tracked along the exact branch
cascade of the reader: a $STOM line may only occur outside a block and
an $ENOM line only inside one (properly alternating sentinels).  The
counterexample above shows the sequence-number claim fails without
this restriction. -/
def blocksOk : Bool → List String → Bool
  | _, [] => true
  | inside, l :: ls =>
    if pyStartsWith l "$NUMS" then blocksOk inside ls
    else if pyStartsWith l "$STOM" then !inside && blocksOk true ls
    else if w2cadKeys.any (fun k => pyStartsWith l k) then blocksOk inside ls
    else if pyStartsWith l "<" then blocksOk inside ls
    else if pyStartsWith l "$ENOM" then inside && blocksOk false ls
    else blocksOk inside ls

/-- Loop invariant of the reader on block-well-formed input: the
flushed sealed records carry sequence numbers 1..n in order, and the
counter, the pending-seal count and the current record agree with the
phase (inside or outside a block). -/
def seqInvariant (inside : Bool) (st : ReadState) : Prop :=
  st.sealed.map (fun m => m.measurement_number) = List.range' 1 st.sealed.length ∧
  (inside = true →
    st.count = st.sealed.length + 1 ∧ st.pending = 0 ∧
    ∃ m, st.current = some m ∧ m.measurement_number = st.count) ∧
  (inside = false →
    st.count = st.sealed.length + st.pending ∧ st.pending ≤ 1 ∧
    (st.pending = 1 → ∃ m, st.current = some m ∧ m.measurement_number = st.count))

/-- Assigning any tagged attribute never changes the sequence
number. -/
theorem setMeasurementAttr_number (m : W2CADMeasurement) (a v : String) :
    (setMeasurementAttr m a v).measurement_number = m.measurement_number := by
  unfold setMeasurementAttr
  split <;> rfl

/-- Flushing the pending seals of an outside-phase state yields a
list whose numbers are again 1..n, of length equal to the running
counter. -/
theorem flush_spec (st : ReadState)
    (hmap : st.sealed.map (fun m => m.measurement_number) = List.range' 1 st.sealed.length)
    (hcount : st.count = st.sealed.length + st.pending)
    (hpend : st.pending ≤ 1)
    (hm : st.pending = 1 → ∃ m, st.current = some m ∧ m.measurement_number = st.count) :
    (flushPending st).map (fun m => m.measurement_number) =
      List.range' 1 (flushPending st).length ∧
    (flushPending st).length = st.count := by
  rcases hp : st.pending with _ | p
  · have he : flushPending st = st.sealed := by
      unfold flushPending; cases st.current <;> simp [hp]
    rw [he]
    exact ⟨hmap, by omega⟩
  · have hp1 : st.pending = 1 := by omega
    obtain ⟨m, hc, hnum⟩ := hm hp1
    have he : flushPending st = st.sealed ++ [m] := by
      unfold flushPending; rw [hc, hp1]; rfl
    have hnum' : m.measurement_number = st.sealed.length + 1 := by omega
    rw [he]
    constructor
    · rw [List.map_append, hmap]
      simp only [List.map_cons, List.map_nil, List.length_append,
        List.length_cons, List.length_nil, Nat.add_zero, Nat.zero_add]
      rw [hnum', List.range'_concat]
      simp [Nat.add_comm]
    · simp only [List.length_append, List.length_cons, List.length_nil]
      omega

/-- The $STOM transition re-establishes the invariant in the inside
phase. -/
theorem stom_invariant (energy : String) (st : ReadState)
    (hinv : seqInvariant false st) :
    seqInvariant true
      { num_scans := st.num_scans, count := st.count + 1,
        current := some { measurement_number := st.count + 1, energy := energy },
        pending := 0, sealed := flushPending st } := by
  obtain ⟨hmap, _, hout⟩ := hinv
  obtain ⟨hcount, hpend, hm⟩ := hout rfl
  obtain ⟨fmap, flen⟩ := flush_spec st hmap hcount hpend hm
  exact ⟨fmap, fun _ => ⟨by rw [flen], rfl, ⟨_, rfl, rfl⟩⟩, fun h => nomatch h⟩

/-- Replacing the current record by one with the same sequence number
(a tagged-line assignment or a sample append) keeps the invariant. -/
theorem inv_update_current (inside : Bool) (st : ReadState)
    (m m2 : W2CADMeasurement) (hc : st.current = some m)
    (hnum : m2.measurement_number = m.measurement_number)
    (hinv : seqInvariant inside st) :
    seqInvariant inside { st with current := some m2 } := by
  obtain ⟨hmap, hin, hout⟩ := hinv
  refine ⟨hmap, fun h => ?_, fun h => ?_⟩
  · obtain ⟨h1, h2, mm, hmm, hn⟩ := hin h
    have he : m = mm := Option.some.inj (hc.symm.trans hmm)
    exact ⟨h1, h2, m2, rfl, by rw [hnum, he]; exact hn⟩
  · obtain ⟨h1, h2, h3⟩ := hout h
    refine ⟨h1, h2, fun hp => ?_⟩
    obtain ⟨mm, hmm, hn⟩ := h3 hp
    have he : m = mm := Option.some.inj (hc.symm.trans hmm)
    exact ⟨m2, rfl, by rw [hnum, he]; exact hn⟩

/-- The $ENOM transition re-establishes the invariant in the outside
phase. -/
theorem enom_invariant (st : ReadState) (hinv : seqInvariant true st) :
    seqInvariant false { st with pending := st.pending + 1 } := by
  obtain ⟨hmap, hin, _⟩ := hinv
  obtain ⟨h1, h2, m, hm, hn⟩ := hin rfl
  refine ⟨hmap, fun h => absurd h (by decide),
    fun _ => ⟨?_, ?_, fun _ => ⟨m, hm, hn⟩⟩⟩
  · show st.count = st.sealed.length + (st.pending + 1)
    omega
  · show st.pending + 1 ≤ 1
    omega

/-- The invariant is preserved along any successful run of the loop
over block-well-formed lines. -/
theorem runLines_seqInvariant (energy : String) (lines : List String) :
    ∀ (inside : Bool) (st st2 : ReadState),
      blocksOk inside lines = true → seqInvariant inside st →
      runLines energy st lines = .ok st2 →
      ∃ inside2, seqInvariant inside2 st2 := by
  induction lines with
  | nil =>
    intro inside st st2 _ hinv hrun
    refine ⟨inside, ?_⟩
    have he : st = st2 := by
      simpa only [runLines, Except.ok.injEq] using hrun
    rwa [← he]
  | cons l ls ih =>
    intro inside st st2 hB hinv hrun
    simp only [runLines] at hrun
    simp only [blocksOk] at hB
    cases hw1 : pyStartsWith l "$NUMS" with
    | true =>
      simp only [hw1, if_true] at hB
      simp only [stepLine, hw1, if_true] at hrun
      rcases hgl : (pySplit l).getLast? with _ | t
      · simp only [hgl] at hrun; exact absurd hrun (by simp)
      · rcases hpi : pyInt t with _ | n
        · simp only [hgl, hpi] at hrun; exact absurd hrun (by simp)
        · simp only [hgl, hpi] at hrun
          exact ih inside { st with num_scans := some n } st2 hB hinv hrun
    | false =>
      simp only [hw1, Bool.false_eq_true, if_false] at hB
      simp only [stepLine, hw1, Bool.false_eq_true, if_false] at hrun
      cases hw2 : pyStartsWith l "$STOM" with
      | true =>
        simp only [hw2, if_true, Bool.and_eq_true, Bool.not_eq_eq_eq_not,
          Bool.not_true] at hB
        obtain ⟨hIns, hB2⟩ := hB
        subst hIns
        simp only [hw2, if_true] at hrun
        exact ih true _ st2 hB2 (stom_invariant energy st hinv) hrun
      | false =>
        simp only [hw2, Bool.false_eq_true, if_false] at hB
        simp only [hw2, Bool.false_eq_true, if_false] at hrun
        rcases hc : st.current with _ | m
        · rw [hc] at hrun; exact absurd hrun (by simp)
        · rw [hc] at hrun
          cases hw3 : w2cadKeys.any (fun k => pyStartsWith l k) with
          | true =>
            simp only [hw3, if_true] at hB hrun
            rcases hsp : pySplit l with _ | ⟨k, _ | ⟨v, _ | ⟨w, rest⟩⟩⟩
            · simp only [hsp] at hrun; exact absurd hrun (by simp)
            · simp only [hsp] at hrun; exact absurd hrun (by simp)
            · rcases hlk : List.lookup k w2cad_measurement_dictionary with _ | attr
              · simp only [hsp, hlk] at hrun; exact absurd hrun (by simp)
              · simp only [hsp, hlk] at hrun
                exact ih inside _ st2 hB
                  (inv_update_current inside st m (setMeasurementAttr m attr v) hc
                    (setMeasurementAttr_number m attr v) hinv) hrun
            · simp only [hsp] at hrun; exact absurd hrun (by simp)
          | false =>
            simp only [hw3, Bool.false_eq_true, if_false] at hB hrun
            cases hw4 : pyStartsWith l "<" with
            | true =>
              simp only [hw4, if_true] at hB hrun
              exact ih inside _ st2 hB
                (inv_update_current inside st m
                  { m with data_line := m.data_line ++ [stripSample l] } hc rfl hinv) hrun
            | false =>
              simp only [hw4, Bool.false_eq_true, if_false] at hB hrun
              cases hw5 : pyStartsWith l "$ENOM" with
              | true =>
                simp only [hw5, if_true, Bool.and_eq_true] at hB
                obtain ⟨hIns, hB2⟩ := hB
                subst hIns
                simp only [hw5, if_true] at hrun
                rw [← hc] at hrun
                exact ih false _ st2 hB2 (enom_invariant st hinv) hrun
              | false =>
                simp only [hw5, Bool.false_eq_true, if_false] at hB hrun
                exact ih inside st st2 hB hinv hrun

/-- At end of input an invariant-satisfying state yields a record
list with sequence numbers exactly 1..n. -/
theorem finalize_seq (inside : Bool) (st : ReadState) (ns : Option Int)
    (recs : List W2CADMeasurement) (hinv : seqInvariant inside st)
    (hfin : finalizeRead st = .ok (ns, recs)) :
    recs.map (fun m => m.measurement_number) = List.range' 1 recs.length := by
  obtain ⟨hmap, hin, hout⟩ := hinv
  rcases hc : st.current with _ | m
  · simp only [finalizeRead, hc] at hfin
    exact absurd hfin (by simp)
  · simp only [finalizeRead, hc] at hfin
    obtain ⟨hns, hrecs⟩ := Prod.mk.inj (Except.ok.inj hfin)
    subst hrecs
    cases inside with
    | true =>
      obtain ⟨h1, h2p, _⟩ := hin rfl
      have he : flushPending st = st.sealed := by
        unfold flushPending; rw [hc, h2p]; simp
      rw [he]; exact hmap
    | false =>
      obtain ⟨h1, h2p, h3⟩ := hout rfl
      exact (flush_spec st hmap h1 h2p h3).1

/-- Amendment of claim C6: for every source whose block sentinels
alternate properly ($STOM only outside, $ENOM only inside a block),
any parse that terminates normally returns records whose sequence
numbers are exactly 1, 2, ..., N in order of appearance — none
dropped, none duplicated.  (Without the alternation hypothesis the
claim is false: see the counterexample with a doubled $ENOM.) -/
theorem c6_amended_sequence_numbers (path : String) (lines : List String)
    (ns : Option Int) (recs : List W2CADMeasurement)
    (hB : blocksOk false lines = true)
    (h : read_w2 path lines = .ok (ns, recs)) :
    recs.map (fun m => m.measurement_number) = List.range' 1 recs.length := by
  cases hext : pyEndsWith path ".ASC" with
  | false => simp [read_w2, hext] at h
  | true =>
    simp only [read_w2, hext, if_true] at h
    rcases hen : getEnergy path with e | energy
    · simp only [hen] at h
      exact absurd h (by simp)
    · simp only [hen] at h
      rcases hrl : runLines energy {} lines with e | st2
      · simp only [hrl] at h
        exact absurd h (by simp)
      · simp only [hrl] at h
        obtain ⟨i2, hinv2⟩ := runLines_seqInvariant energy lines false {} st2 hB
          ⟨rfl, fun hh => absurd hh (by decide),
           fun _ => ⟨rfl, by decide, fun hp => absurd hp (by decide)⟩⟩ hrl
        exact finalize_seq i2 st2 ns recs hinv2 h

/-- First record of the C6 witness run. -/
def c6RecordOne : W2CADMeasurement := { measurement_number := 1, energy := "6" }

/-- Second record of the C6 witness run. -/
def c6RecordTwo : W2CADMeasurement := { measurement_number := 2, energy := "6" }

/-- Witness for the C6 amendment: a two-block well-formed source
yields records numbered 1, 2. -/
theorem c6_amended_sequence_numbers_witness :
    [c6RecordOne, c6RecordTwo].map (fun m => m.measurement_number) =
      List.range' 1 [c6RecordOne, c6RecordTwo].length :=
  c6_amended_sequence_numbers "6X.ASC" ["$NUMS 2", "$STOM", "$ENOM", "$STOM", "$ENOM"]
    (some 2) [c6RecordOne, c6RecordTwo] (by decide) (by decide)
